import Mathlib

/-!
Shallow embedding of the core of `src/backend/routes/price.js` (the Groomly
pricing service): the rate limiter, the FIFO concurrency slot allocator for
model calls, the groomer-search pipeline (geocode → progressive-radius
search → mock fallback → dedup → sort → truncate), and the `POST /price`
request handler with its price-parse fallback.

Modelling conventions:
* JS numbers that carry coordinate/price/time values are modelled as `ℚ`
  (coordinates, distances, ratings) or `ℤ` (millisecond timestamps, counters).
* External collaborators (the geocoding provider, the Google Places provider,
  the Groq chat-completions API and the JS builtin `JSON.parse`) are inputs to
  the embedded functions: each request handler run is a pure function of the
  responses those collaborators would give.  `Math.random()` draws are passed
  in as streams `ℕ → ℚ`.
* The great-circle helper `haversineKm` uses JS floating-point trigonometry;
  the pipeline is therefore parameterised by an arbitrary distance function
  `dist : ℚ → ℚ → ℚ → ℚ → ℚ` standing for it.  No claim here depends on the
  numeric value of a distance, only on how the pipeline uses it.
* A thrown JS exception is an `Except.error` carrying the message string.
-/

namespace Groomly

/-! ## Data model -/

/-- Result of `geocodeLocation`: first geocoder hit. -/
structure GeoLoc where
  lat : ℚ
  lng : ℚ
  formatted : String
deriving DecidableEq

/-- One raw entry of a Google Places `nearbysearch` response, with just the
fields `searchRealGroomers` reads. -/
structure RawPlace where
  name : String
  vicinity : Option String
  formatted_address : Option String
  place_id : Option String
  lat : ℚ
  lng : ℚ
  rating : Option ℚ
  open_now : Option Bool
  types : List String
deriving DecidableEq

/-- A `GroomerCandidate` as built by `searchRealGroomers` or the mock
fallback in `fetchNearbyGroomers`. -/
structure Groomer where
  name : String
  address : Option String
  place_id : Option String
  lat : ℚ
  lng : ℚ
  rating : Option ℚ
  phone : Option String
  hours : Option String
  website : Option String
  types : List String
  services : List String
  service_match : Bool
  distanceKm : ℚ
  source : String
deriving DecidableEq

/-- The structured price object of the response (`parsed` in the handler). -/
structure PriceEstimate where
  min : Option ℚ
  max : Option ℚ
  currency : String
  confidence : String
  notes : String
deriving DecidableEq

/-! ## JS string helpers

`String.toLower` / `String.trim` from the Lean core library do not reduce in
the kernel, so the JS operations used on payload fields are modelled
char-by-char. -/

/-- ASCII lower-casing of one character (the payload values the route compares
against its enumerations are ASCII). -/
def jsLowerChar (c : Char) : Char :=
  if 'A' ≤ c ∧ c ≤ 'Z' then Char.ofNat (c.toNat + 32) else c

/-- Model of JS `String.prototype.toLowerCase` on the inputs of the route. -/
def jsToLower (s : String) : String := String.mk (s.data.map jsLowerChar)

/-- Whitespace as far as JS `trim` is concerned (common ASCII whitespace). -/
def jsIsWs (c : Char) : Bool := c = ' ' || c = '\t' || c = '\n' || c = '\r'

/-- Model of JS `String.prototype.trim`. -/
def jsTrim (s : String) : String :=
  String.mk (((s.data.dropWhile jsIsWs).reverse.dropWhile jsIsWs).reverse)

/-- JS truthiness of a string-or-absent value: `undefined`, `null` and `""`
are falsy. -/
def jsTruthy : Option String → Bool
  | some s => s ≠ ""
  | none => false

/-! ## Rate limiter (`rateLimiter` middleware) -/

/-- One entry of `rateLimitMap`: per-client request count and window start
(milliseconds since epoch). -/
structure RLEntry where
  count : ℤ
  windowStart : ℤ
deriving DecidableEq

/-- Everything the middleware does on one request: the updated map entry, the
three `X-RateLimit-*` headers it sets, and `some retryAfterSec` when it
responds 429 instead of calling `next()`. -/
structure RLOutcome where
  entry : RLEntry
  limitHeader : ℤ
  remainingHeader : ℤ
  resetHeader : ℤ
  blocked : Option ℤ
deriving DecidableEq

/-- JS `Math.ceil(x / 1000)` for an integer number of milliseconds `x`. -/
def ceilDiv1000 (x : ℤ) : ℤ := Int.ediv (x + 999) 1000

/-- The body of `rateLimiter` for one request: `now = Date.now()`, `prev` the
current `rateLimitMap` entry of the client (if any).  Window reset, increment,
header computation and the over-limit 429 check, exactly as in the source. -/
def rateLimiter (windowMs maxReq : ℤ) (now : ℤ) (prev : Option RLEntry) : RLOutcome :=
  let e0 := prev.getD ⟨0, now⟩
  let e1 := if now - e0.windowStart ≥ windowMs then (⟨0, now⟩ : RLEntry) else e0
  let e2 : RLEntry := ⟨e1.count + 1, e1.windowStart⟩
  let remaining := max 0 (maxReq - e2.count)
  let reset := ceilDiv1000 (e2.windowStart + windowMs)
  let blocked := if e2.count > maxReq
    then some (ceilDiv1000 (e2.windowStart + windowMs - now))
    else none
  ⟨e2, maxReq, remaining, reset, blocked⟩

/-! ## Concurrency slot allocator (`acquireLLMSlot` / `releaseLLMSlot`) -/

/-- The process-wide state of the allocator: `activeLLMCalls` and the queue of
suspended acquirers (`llmQueue`), identified by arrival tokens. -/
structure SemState where
  active : ℤ
  queue : List ℕ
deriving DecidableEq

/-- Function `acquireLLMSlot` as a step on the allocator state: caller `w` either gets
a slot now (`true`) or is appended to `llmQueue` (`false`). -/
def acquireLLMSlot (maxConcurrent : ℤ) (w : ℕ) (s : SemState) : SemState × Bool :=
  if s.active < maxConcurrent then (⟨s.active + 1, s.queue⟩, true)
  else (⟨s.active, s.queue ++ [w]⟩, false)

/-- Function `releaseLLMSlot` as a step: decrement `activeLLMCalls`; if waiters exist,
shift the queue head, re-increment and resolve that waiter (returned as
`some w`). -/
def releaseLLMSlot (s : SemState) : SemState × Option ℕ :=
  let a := s.active - 1
  match s.queue with
  | [] => (⟨a, []⟩, none)
  | w :: rest => (⟨a + 1, rest⟩, some w)

/-- Allocator states reachable under the usage discipline of `callLLM`: the
process starts with no active calls and an empty queue; an arriving call runs
`acquireLLMSlot`; a call that currently holds a slot (so `0 < active`)
finishes — successfully or by throwing — and its `finally` block runs
`releaseLLMSlot`.  The JS runtime is single-threaded, so each step is atomic. -/
inductive SemReachable (maxConcurrent : ℤ) : SemState → Prop
  | init : SemReachable maxConcurrent ⟨0, []⟩
  | arrive (w : ℕ) (s : SemState) : SemReachable maxConcurrent s →
      SemReachable maxConcurrent (acquireLLMSlot maxConcurrent w s).1
  | finish (s : SemState) : SemReachable maxConcurrent s → 0 < s.active →
      SemReachable maxConcurrent (releaseLLMSlot s).1

/-! ## `callLLM` -/

/-- The value/exception produced by the body of the `try` block of `callLLM`:
a missing `GROQ_API_KEY` throws before the network call; otherwise `api` is
the outcome of the axios POST to the Groq chat-completions endpoint
(`.ok text` = the extracted message content, `.error msg` = the thrown
message of the error).  The `catch` rewraps every error. -/
def callLLMResult (hasGroqKey : Bool) (api : Except String String) : Except String String :=
  match (if hasGroqKey then api else .error "GROQ_API_KEY not configured in environment") with
  | .ok text => .ok text
  | .error msg => .error ("Groq AI connection failed: " ++ msg)

/-- One whole run of `callLLM` as it acts on the allocator state when it runs
to completion: `await acquireLLMSlot()`, then the `try` body, and — on both
the success and the throw path — the `finally { releaseLLMSlot(); }`. -/
def callLLMRun (maxConcurrent : ℤ) (w : ℕ) (hasGroqKey : Bool)
    (api : Except String String) (s : SemState) : SemState × Except String String :=
  let s1 := (acquireLLMSlot maxConcurrent w s).1
  match callLLMResult hasGroqKey api with
  | .ok text => ((releaseLLMSlot s1).1, .ok text)
  | .error msg => ((releaseLLMSlot s1).1, .error msg)

/-! ## Groomer search (`searchRealGroomers` / `fetchNearbyGroomers`) -/

/-- Outcome of one axios call to the Places provider: `err` when the request
threw (network failure, timeout), otherwise the response `status` field and
result list. -/
inductive ProviderResp
  | err (msg : String)
  | ok (status : String) (places : List RawPlace)
deriving DecidableEq

/-- The object `searchRealGroomers` builds from one raw place (`places.map`
body): the distance from the search center is computed with the great-circle
helper (`dist` stands for `haversineKm`) and recorded on the candidate. -/
def placeToGroomer (dist : ℚ → ℚ → ℚ → ℚ → ℚ) (lat lng : ℚ) (petType : String)
    (p : RawPlace) : Groomer :=
  { name := p.name
    address := if jsTruthy p.vicinity then p.vicinity else p.formatted_address
    place_id := p.place_id
    lat := p.lat
    lng := p.lng
    rating := match p.rating with
      | some r => if r = 0 then none else some r
      | none => none
    phone := none
    hours := if p.open_now = some true then some "Open now" else none
    website := none
    types := p.types
    services := [petType]
    service_match := true
    distanceKm := dist lat lng p.lat p.lng
    source := "google-places" }

/-- Function `searchRealGroomers`: skip when the Places API key is missing; return `[]`
on a thrown request or a non-OK status; otherwise map every raw result to a
candidate.  (`radiusMiles` is only forwarded to the provider inside the
request URL; the function itself does not use it.) -/
def searchRealGroomers (dist : ℚ → ℚ → ℚ → ℚ → ℚ) (hasPlacesKey : Bool)
    (lat lng : ℚ) (petType : String) (radiusMiles : ℚ) (resp : ProviderResp) :
    List Groomer :=
  if ¬hasPlacesKey then []
  else match resp with
    | .err _ => []
    | .ok status places =>
      if status ≠ "OK" ∧ status ≠ "ZERO_RESULTS" then []
      else places.map (placeToGroomer dist lat lng petType)

/-- The progressive-radius loop of `fetchNearbyGroomers`: accumulate results
across radii, record the last radius that produced results, and stop early
once 10 candidates are accumulated. -/
def radiusLoop (search : ℚ → List Groomer) :
    List ℚ → List Groomer → Option ℚ → List Groomer × Option ℚ
  | [], acc, used => (acc, used)
  | m :: rest, acc, used =>
    let gs := search m
    if 0 < gs.length then
      let acc2 := acc ++ gs
      if 10 ≤ acc2.length then (acc2, some m)
      else radiusLoop search rest acc2 (some m)
    else radiusLoop search rest acc used

/-- List `REALISTIC_GROOMER_NAMES` from the source. -/
def REALISTIC_GROOMER_NAMES : List String :=
  ["Pampered Paws Grooming", "Happy Tails Pet Salon", "Fur & Feather Care",
   "Pawsitive Grooming Studio", "The Grooming Lab", "Bark & Bubble Pet Spa",
   "Elegant Paws Boutique", "Tail Waggers Grooming", "Premium Pet Grooming Co.",
   "Fluffy Friends Salon", "Noble Hound Grooming", "Sunshine Pet Care",
   "Pristine Paws Professional Grooming", "The Pet Parlor", "Royal Pet Grooming"]

/-- The fixed coordinate offsets of the mock-data block. -/
def mockOffsets : List (ℚ × ℚ) :=
  [(0.01, 0.01), (-0.015, 0.008), (0.008, -0.012), (0.012, 0.015),
   (-0.02, -0.005), (0.018, 0.002), (-0.008, 0.018), (0.022, -0.010)]

/-- The street-name cycle of the mock addresses. -/
def mockStreets : List String := ["Main St", "Oak Ave", "Elm Blvd", "Maple Dr"]

/-- JS `(x).toFixed(1)` coerced back to a number, for the mock rating. -/
def toFixed1 (q : ℚ) : ℚ := (⌊q * 10 + 1 / 2⌋ : ℚ) / 10

/-- Function `generatePhoneNumber` with its three `Math.random()` draws made explicit. -/
def generatePhoneNumber (r1 r2 r3 : ℚ) : String :=
  let areaCode := ⌊r1 * 900⌋ + 200
  let exchange := ⌊r2 * 900⌋ + 200
  let number := ⌊r3 * 9000⌋ + 1000
  "(" ++ toString areaCode ++ ") " ++ toString exchange ++ "-" ++ toString number

/-- The mock-data block of `fetchNearbyGroomers`, run when no real groomer was
found: one synthesized candidate per offset, names drawn round-robin from the
curated list.  `rnd` is the `Math.random()` stream; iteration `i` consumes
draws `4*i .. 4*i+3` (rating first, then the three phone-number draws). -/
def mockGroomers (dist : ℚ → ℚ → ℚ → ℚ → ℚ) (center : GeoLoc) (rnd : ℕ → ℚ)
    (petType : String) : List Groomer :=
  (List.range mockOffsets.length).map fun i =>
    let o := mockOffsets.getD i (0, 0)
    let lat := center.lat + o.1
    let lng := center.lng + o.2
    { name := REALISTIC_GROOMER_NAMES.getD (i % REALISTIC_GROOMER_NAMES.length) ""
      address := some (toString (100 + i * 25) ++ " " ++ mockStreets.getD (i % 4) ""
        ++ ", near " ++ center.formatted)
      place_id := none
      lat := lat
      lng := lng
      rating := some (toFixed1 (38 / 10 + rnd (4 * i) * 12 / 10))
      phone := some (generatePhoneNumber (rnd (4 * i + 1)) (rnd (4 * i + 2)) (rnd (4 * i + 3)))
      hours := some "Mon-Fri 9AM-6PM, Sat 10AM-4PM"
      website := none
      types := ["pet_groomer"]
      services := [petType]
      service_match := true
      distanceKm := dist center.lat center.lng lat lng
      source := "mock" }

/-- The deduplication key of `fetchNearbyGroomers`:
`g.place_id || lat-comma-lng string`.  Distinct JS numbers print distinctly,
so the coordinate string is modelled as the coordinate pair itself. -/
inductive DedupKey
  | byId (s : String)
  | byCoord (lat lng : ℚ)
deriving DecidableEq

/-- The key actually computed by the source (coordinates only when the
external identifier is absent or falsy). -/
def groomerKey (g : Groomer) : DedupKey :=
  if jsTruthy g.place_id then .byId (g.place_id.getD "") else .byCoord g.lat g.lng

/-- The dedup loop of `fetchNearbyGroomers` (`seen` set threaded through). -/
def dedupGroomers : List Groomer → List DedupKey → List Groomer
  | [], _ => []
  | g :: rest, seen =>
    if groomerKey g ∈ seen then dedupGroomers rest seen
    else g :: dedupGroomers rest (groomerKey g :: seen)

/-- The key the spec describes for the fallback case: a composite of
coordinate AND address (the key in the source omits the address).  Kept solely to
compare against `groomerKey`. -/
inductive SpecKey
  | byId (s : String)
  | byCoordAddr (lat lng : ℚ) (address : Option String)
deriving DecidableEq

/-- Modelled from the spec: "Deduplicate by external identifier when present,
else by a composite of coordinate and address". -/
def specGroomerKey (g : Groomer) : SpecKey :=
  if jsTruthy g.place_id then .byId (g.place_id.getD "")
  else .byCoordAddr g.lat g.lng g.address

/-- Modelled from the spec: the dedup loop run with the composite key of the spec. -/
def specDedupGroomers : List Groomer → List SpecKey → List Groomer
  | [], _ => []
  | g :: rest, seen =>
    if specGroomerKey g ∈ seen then specDedupGroomers rest seen
    else g :: specDedupGroomers rest (specGroomerKey g :: seen)

/-- Stable insertion by ascending `distanceKm`, one step of the comparator
sort `(a, b) => (a.distanceKm ?? Infinity) - (b.distanceKm ?? Infinity)`
(every candidate the pipeline builds carries a distance, so the `Infinity`
arm is never taken). -/
def insertByDist (g : Groomer) : List Groomer → List Groomer
  | [] => [g]
  | h :: t => if g.distanceKm < h.distanceKm then g :: h :: t else h :: insertByDist g t

/-- The distance sort of `fetchNearbyGroomers` as a stable insertion sort. -/
def sortByDist : List Groomer → List Groomer
  | [] => []
  | g :: rest => insertByDist g (sortByDist rest)

/-- What `fetchNearbyGroomers` resolves to. -/
structure SearchResult where
  groomers : List Groomer
  radiusMilesUsed : Option ℚ
deriving DecidableEq

/-- The fixed radius schedule `[10, 20, 30, 40]` miles. -/
def radiiMiles : List ℚ := [10, 20, 30, 40]

/-- Function `fetchNearbyGroomers`: geocode, progressive-radius search, mock fallback
when nothing was found (with `radiusUsed = 20`), dedup, distance sort,
truncation to 12.  Any exception reaching its top-level `catch` — in this
pure pipeline, exactly a geocoding failure, since `searchRealGroomers`
swallows its own errors — yields `⟨[], none⟩`. -/
def fetchNearbyGroomers (dist : ℚ → ℚ → ℚ → ℚ → ℚ) (geo : Except String GeoLoc)
    (hasPlacesKey : Bool) (provider : ℚ → ProviderResp) (rnd : ℕ → ℚ)
    (petType : String) : SearchResult :=
  match geo with
  | .error _ => ⟨[], none⟩
  | .ok center =>
    let found := radiusLoop
      (fun m => searchRealGroomers dist hasPlacesKey center.lat center.lng petType m
        (provider m)) radiiMiles [] none
    let all := if found.1.length = 0
      then (mockGroomers dist center rnd petType, some (20 : ℚ))
      else found
    ⟨(sortByDist (dedupGroomers all.1 [])).take 12, all.2⟩

/-! ## Input validation and the `POST /price` handler -/

/-- List `ALLOWED_TYPES` from the source. -/
def ALLOWED_TYPES : List String :=
  ["dog", "cat", "lizard", "rabbit", "bird", "other", "hamster", "fish",
   "amphibian", "snake", "tortoise"]

/-- List `ALLOWED_SIZES` from the source. -/
def ALLOWED_SIZES : List String := ["tiny", "small", "medium", "large", "x-large"]

/-- Validation `validatePriceInput`.  Body fields are modelled as `Option String`
(`none` = absent or non-string, which the `typeof` checks treat alike). -/
def validatePriceInput (location size ptype : Option String) : List String :=
  let locErrs := match location with
    | none => ["location is required"]
    | some l =>
      if l = "" ∨ (jsTrim l).length < 2 then ["location is required"]
      else if l.length > 200 then ["location is too long"] else []
  let sizeMsg := "size must be one of: " ++ String.intercalate ", " ALLOWED_SIZES
  let sizeErrs := match size with
    | none => [sizeMsg]
    | some s => if s = "" ∨ ¬ALLOWED_SIZES.contains (jsToLower s) then [sizeMsg] else []
  let typeMsg := "type must be one of: " ++ String.intercalate ", " ALLOWED_TYPES
  let typeErrs := match ptype with
    | none => [typeMsg]
    | some s => if s = "" ∨ ¬ALLOWED_TYPES.contains (jsToLower s) then [typeMsg] else []
  locErrs ++ sizeErrs ++ typeErrs

/-- The payload normalisation at the top of the route handler: `address`+`zip`
are combined and take precedence over `location`; `size`/`type` are trimmed
and lower-cased when they are strings. -/
def assemblePayload (address zip location size ptype : Option String) :
    Option String × Option String × Option String :=
  let addressField := match address with | some a => jsTrim a | none => ""
  let zipField := match zip with | some z => jsTrim z | none => ""
  let locationInput : String :=
    if addressField ≠ "" then addressField
    else match location with | some l => l | none => ""
  let locationCombined :=
    if zipField ≠ "" then jsTrim (locationInput ++ " " ++ zipField) else locationInput
  (if locationCombined ≠ "" then some locationCombined else location,
   size.map (fun s => jsToLower (jsTrim s)),
   ptype.map (fun s => jsToLower (jsTrim s)))

/-- The prefix of a char list up to and including its last closing brace. -/
def upToLastRBrace (l : List Char) : List Char :=
  (l.reverse.dropWhile (fun c => c ≠ '\x7d')).reverse

/-- The greedy regex match `/\x7b[\s\S]*\x7d/` on the model output: the
substring from the first opening brace that has a later closing brace,
through the last closing brace of the string. -/
def extractBraceCore : List Char → Option (List Char)
  | [] => none
  | c :: rest =>
    if c = '\x7b' ∧ rest.contains '\x7d' then some (c :: upToLastRBrace rest)
    else extractBraceCore rest

/-- The JS expression `(llmResponse || "").match(...)` lifted to `String`. -/
def extractBraceMatch (s : String) : Option String :=
  (extractBraceCore s.data).map String.mk

/-- The deterministic parse-fallback estimate of the handler, keyed on the
normalised pet size. -/
def heuristicEstimate (size : String) : PriceEstimate :=
  let baseMin : ℚ := if size = "tiny" ∨ size = "small" then 30
    else if size = "medium" then 50 else 80
  ⟨some baseMin, some (baseMin + 50), "USD", "medium", "Fallback estimate (LLM parse error)"⟩

/-- All external behaviour one run of the route handler can observe.  `llm`
is the outcome of `callLLM` on the built prompt (already wrapped by
`callLLMResult`); `jsonParse` models the JS builtin `JSON.parse` adapted to
the price object — `none` where `JSON.parse` would throw. -/
structure RouteDeps where
  dist : ℚ → ℚ → ℚ → ℚ → ℚ
  geo : Except String GeoLoc
  hasPlacesKey : Bool
  provider : ℚ → ProviderResp
  rnd : ℕ → ℚ
  llm : Except String String
  jsonParse : String → Option PriceEstimate

/-- The response body of the route, reduced to the fields the specification
speaks about (`input.groomersCount`, `input.radiusMilesUsed`, `price`,
`groomers`, and the two error shapes). -/
inductive PriceRouteResult
  | badRequest (details : List String)
  | ok (groomersCount : ℕ) (radiusMilesUsed : Option ℚ) (price : PriceEstimate)
      (groomers : List Groomer)
  | serverError (details : String)
deriving DecidableEq

/-- Stand-in for the engine-specific message of the `SyntaxError` thrown when
the second `JSON.parse` (on the extracted brace substring) fails. -/
def jsonThrowMessage : String := "Unexpected token in JSON"

/-- The validation errors the route computes for a given raw body. -/
def routeValidation (address zip location size ptype : Option String) : List String :=
  let p := assemblePayload address zip location size ptype
  validatePriceInput p.1 p.2.1 p.2.2

/-- The normalised `size` field the route works with after validation. -/
def routeSize (address zip location size ptype : Option String) : String :=
  (assemblePayload address zip location size ptype).2.1.getD ""

/-- The normalised `type` field the route works with after validation. -/
def routeType (address zip location size ptype : Option String) : String :=
  (assemblePayload address zip location size ptype).2.2.getD ""

/-- The groomer search the route performs on a given raw body. -/
def routeSearch (d : RouteDeps) (address zip location size ptype : Option String) :
    SearchResult :=
  fetchNearbyGroomers d.dist d.geo d.hasPlacesKey d.provider d.rnd
    (routeType address zip location size ptype)

/-- The `POST /price` handler after the rate limiter: payload normalisation,
validation (400), groomer search, empty-list short-circuit (200 / "low"),
model call, the two-stage parse with heuristic fallback, and the top-level
`catch` (500).  The second component records whether `callLLM` was reached. -/
def priceRoute (d : RouteDeps) (address zip location size ptype : Option String) :
    PriceRouteResult × Bool :=
  if routeValidation address zip location size ptype ≠ [] then
    (.badRequest (routeValidation address zip location size ptype), false)
  else
    let sz := routeSize address zip location size ptype
    let sr := routeSearch d address zip location size ptype
    if sr.groomers = [] then
      (.ok 0 sr.radiusMilesUsed ⟨none, none, "USD", "low", "No local groomers found"⟩ [], false)
    else
      match d.llm with
      | .error msg => (.serverError msg, true)
      | .ok text =>
        match d.jsonParse text with
        | some parsed => (.ok sr.groomers.length sr.radiusMilesUsed parsed sr.groomers, true)
        | none =>
          match extractBraceMatch text with
          | some sub =>
            match d.jsonParse sub with
            | some parsed => (.ok sr.groomers.length sr.radiusMilesUsed parsed sr.groomers, true)
            | none => (.serverError jsonThrowMessage, true)
          | none => (.ok sr.groomers.length sr.radiusMilesUsed (heuristicEstimate sz)
              sr.groomers, true)

/-- HTTP status of a route result. -/
def routeStatus : PriceRouteResult → ℕ
  | .badRequest _ => 400
  | .ok _ _ _ _ => 200
  | .serverError _ => 500

/-- The fixed `error` field of the response body, when present. -/
def routeErrorLabel : PriceRouteResult → Option String
  | .badRequest _ => some "Invalid input"
  | .ok _ _ _ _ => none
  | .serverError _ => some "Pricing service error"

/-- Status plus the two "did we get that far" observations for one request
through the middleware chain. -/
structure EndpointResult where
  status : ℕ
  pipelineRan : Bool
  llmInvoked : Bool
deriving DecidableEq

/-- One request through `rateLimiter` then the route handler: a 429 from the
limiter returns before `next()`, so the pricing pipeline never runs. -/
def priceEndpoint (windowMs maxReq now : ℤ) (prev : Option RLEntry) (d : RouteDeps)
    (address zip location size ptype : Option String) : EndpointResult :=
  let o := rateLimiter windowMs maxReq now prev
  match o.blocked with
  | some _ => ⟨429, false, false⟩
  | none =>
    let r := priceRoute d address zip location size ptype
    ⟨routeStatus r.1, true, r.2⟩

/-! ## Concrete fixtures

Closed instances of the external collaborators, used by the witness and
counterexample theorems below.  `wDist`/`cxDistFar` are concrete stand-ins
for `haversineKm` (the claims never depend on its numeric value, only on how
the pipeline routes it); `cxDistFar` plays the role of the helper evaluated
at a pair of points about 1000 km apart. -/

/-- A geocoded request location. -/
def wGeo : GeoLoc := ⟨30, -97, "Austin, TX"⟩

/-- One raw Places result. -/
def wPlace : RawPlace :=
  ⟨"Happy Pets", some "100 Main St", none, some "pid-1", 30, -97, some (9 / 2), none,
   ["pet_store"]⟩

/-- Stand-in distance function: every pair of points is 1 km apart. -/
def wDist : ℚ → ℚ → ℚ → ℚ → ℚ := fun _ _ _ _ => 1

/-- Stand-in distance function: every pair of points is 1000 km apart. -/
def cxDistFar : ℚ → ℚ → ℚ → ℚ → ℚ := fun _ _ _ _ => 1000

/-- A provider with one hit at the 10-mile radius and nothing beyond. -/
def wProvider : ℚ → ProviderResp :=
  fun m => if m = 10 then .ok "OK" [wPlace] else .ok "ZERO_RESULTS" []

/-- A provider whose request throws at every radius. -/
def cxProviderErr : ℚ → ProviderResp := fun _ => .err "network timeout"

/-- A provider that returns zero results at every radius. -/
def wProviderZero : ℚ → ProviderResp := fun _ => .ok "ZERO_RESULTS" []

/-- A fixed `Math.random()` stream. -/
def wRnd : ℕ → ℚ := fun _ => 0

/-- Deps for a run whose model output has no brace-delimited substring and is
not JSON. -/
def wDepsNoBrace : RouteDeps :=
  ⟨wDist, .ok wGeo, true, wProvider, wRnd, .ok "between thirty and eighty dollars",
   fun _ => none⟩

/-- Deps for a run whose model output is not JSON but does contain a
brace-delimited substring — one that does not parse either. -/
def cxDepsBadBrace : RouteDeps :=
  ⟨wDist, .ok wGeo, true, wProvider, wRnd, .ok "x \x7by\x7d", fun _ => none⟩

/-- Deps for a run whose geocoding call throws. -/
def wDepsGeoFail : RouteDeps :=
  ⟨wDist, .error "Address not found: nowhere", true, wProvider, wRnd, .ok "",
   fun _ => none⟩

/-- Deps for a run whose model call fails for a missing `GROQ_API_KEY`. -/
def wDepsLLMFail : RouteDeps :=
  ⟨wDist, .ok wGeo, true, wProvider, wRnd, callLLMResult false (.ok ""), fun _ => none⟩

/-- A groomer without external identifier at (30, -97), address "1 A St". -/
def cxG1 : Groomer :=
  ⟨"G One", some "1 A St", none, 30, -97, none, none, none, none, [], ["dog"], true, 1,
   "google-places"⟩

/-- A groomer without external identifier at the same coordinate as `cxG1`
but with a different address. -/
def cxG2 : Groomer :=
  ⟨"G Two", some "2 B St", none, 30, -97, none, none, none, none, [], ["dog"], true, 2,
   "google-places"⟩

/-- A groomer carrying external identifier "pid-7". -/
def wG3 : Groomer :=
  ⟨"G Three", some "3 C St", some "pid-7", 31, -98, none, none, none, none, [], ["dog"],
   true, 3, "google-places"⟩

/-- A different groomer carrying the same external identifier "pid-7". -/
def wG4 : Groomer :=
  ⟨"G Four", some "4 D St", some "pid-7", 32, -99, none, none, none, none, [], ["dog"],
   true, 4, "google-places"⟩

/-! ## Helper lemmas -/

theorem mem_insertByDist {a g : Groomer} {l : List Groomer} :
    a ∈ insertByDist g l ↔ a = g ∨ a ∈ l := by
  induction l with
  | nil => simp [insertByDist]
  | cons h t ih =>
    simp only [insertByDist]
    split
    · simp [List.mem_cons]
    · simp only [List.mem_cons, ih]
      tauto

theorem mem_sortByDist {a : Groomer} {l : List Groomer} :
    a ∈ sortByDist l ↔ a ∈ l := by
  induction l with
  | nil => simp [sortByDist]
  | cons h t ih => simp [sortByDist, mem_insertByDist, ih]

theorem length_insertByDist (g : Groomer) (l : List Groomer) :
    (insertByDist g l).length = l.length + 1 := by
  induction l with
  | nil => rfl
  | cons h t ih =>
    simp only [insertByDist]
    split
    · simp
    · simp [ih]

theorem length_sortByDist (l : List Groomer) :
    (sortByDist l).length = l.length := by
  induction l with
  | nil => rfl
  | cons h t ih => simp [sortByDist, length_insertByDist, ih]

theorem dedupGroomers_subset {g : Groomer} :
    ∀ {l : List Groomer} {seen : List DedupKey}, g ∈ dedupGroomers l seen → g ∈ l := by
  intro l
  induction l with
  | nil => intro seen h; simp [dedupGroomers] at h
  | cons x rest ih =>
    intro seen h
    simp only [dedupGroomers] at h
    split at h
    · exact List.mem_cons_of_mem x (ih h)
    · rcases List.mem_cons.mp h with h1 | h2
      · exact h1 ▸ List.mem_cons_self x rest
      · exact List.mem_cons_of_mem x (ih h2)

theorem dedupGroomers_ne_nil {g : Groomer} {rest : List Groomer} :
    dedupGroomers (g :: rest) [] ≠ [] := by
  simp [dedupGroomers]

theorem radiusLoop_of_all_nil (search : ℚ → List Groomer) :
    ∀ (ms : List ℚ) (acc : List Groomer) (used : Option ℚ),
      (∀ m ∈ ms, search m = []) → radiusLoop search ms acc used = (acc, used) := by
  intro ms
  induction ms with
  | nil => intro acc used _; rfl
  | cons m rest ih =>
    intro acc used h
    have hm : search m = [] := h m (List.mem_cons_self m rest)
    simp only [radiusLoop, hm, List.length_nil, lt_self_iff_false, if_false]
    exact ih acc used fun x hx => h x (List.mem_cons_of_mem m hx)

theorem dedup_keyCount_of_mem_seen {k : DedupKey} :
    ∀ {l : List Groomer} {seen : List DedupKey}, k ∈ seen →
      (dedupGroomers l seen).countP (fun g => decide (groomerKey g = k)) = 0 := by
  intro l
  induction l with
  | nil => intro seen _; rfl
  | cons x rest ih =>
    intro seen hk
    simp only [dedupGroomers]
    split
    · exact ih hk
    · rename_i hx
      have hxk : groomerKey x ≠ k := fun h => hx (h ▸ hk)
      simp only [List.countP_cons, decide_eq_true_eq, hxk, if_false, Nat.add_zero]
      exact ih (List.mem_cons_of_mem _ hk)

theorem dedup_keyCount_le_one {k : DedupKey} :
    ∀ {l : List Groomer} {seen : List DedupKey},
      (dedupGroomers l seen).countP (fun g => decide (groomerKey g = k)) ≤ 1 := by
  intro l
  induction l with
  | nil => intro seen; simp [dedupGroomers]
  | cons x rest ih =>
    intro seen
    simp only [dedupGroomers]
    split
    · exact ih
    · by_cases hk : groomerKey x = k
      · subst hk
        simp only [List.countP_cons, decide_eq_true_eq, if_true]
        have h0 := @dedup_keyCount_of_mem_seen (groomerKey x) rest
          (groomerKey x :: seen) (List.mem_cons_self _ _)
        omega
      · simp only [List.countP_cons, decide_eq_true_eq, hk, if_false, Nat.add_zero]
        exact ih

theorem dedup_keyCount_pos {k : DedupKey} {g : Groomer} :
    ∀ {l : List Groomer} {seen : List DedupKey}, g ∈ l → groomerKey g = k → k ∉ seen →
      0 < (dedupGroomers l seen).countP (fun g => decide (groomerKey g = k)) := by
  intro l
  induction l with
  | nil => intro seen h; simp at h
  | cons x rest ih =>
    intro seen hg hk hns
    simp only [dedupGroomers]
    split
    · rename_i hx
      rcases List.mem_cons.mp hg with rfl | hg2
      · exact absurd (hk ▸ hx) hns
      · exact ih hg2 hk hns
    · rename_i hx
      by_cases hxk : groomerKey x = k
      · simp [List.countP_cons, hxk]
      · rcases List.mem_cons.mp hg with rfl | hg2
        · exact absurd hk hxk
        · simp only [List.countP_cons, decide_eq_true_eq, hxk, if_false, Nat.add_zero]
          exact ih hg2 hk (by simp [List.mem_cons, hxk]; tauto)

theorem groomerKey_byId_iff (g : Groomer) (s : String) (hs : s ≠ "") :
    groomerKey g = .byId s ↔ g.place_id = some s := by
  unfold groomerKey
  cases hp : g.place_id with
  | none => simp [jsTruthy]
  | some t =>
    by_cases ht : t = ""
    · subst ht; simp [jsTruthy, Ne.symm hs]
    · simp [jsTruthy, ht]

/-- The allocator invariant, strengthened with the queue discipline needed
for the induction: waiters only pile up while all slots are held. -/
theorem semInvariant (maxC : ℤ) (hN : 0 ≤ maxC) :
    ∀ s, SemReachable maxC s →
      0 ≤ s.active ∧ s.active ≤ maxC ∧ (s.queue ≠ [] → s.active = maxC) := by
  intro s hs
  induction hs with
  | init => exact ⟨le_refl 0, hN, fun h => absurd rfl h⟩
  | arrive w s hs ih =>
    unfold acquireLLMSlot
    split
    · rename_i hlt
      dsimp only
      refine ⟨by omega, by omega, fun hq => ?_⟩
      exact absurd (ih.2.2 hq) (by omega)
    · rename_i hge
      dsimp only
      exact ⟨ih.1, ih.2.1, fun _ => by omega⟩
  | finish s hs hpos ih =>
    unfold releaseLLMSlot
    cases hq : s.queue with
    | nil =>
      dsimp only
      exact ⟨by omega, by omega, fun h => absurd rfl h⟩
    | cons w rest =>
      dsimp only
      have hfull := ih.2.2 (by simp [hq])
      exact ⟨by omega, by omega, fun _ => by omega⟩

/-! ## Claim theorems -/

/-- C4 (amended): during the progressive-radius search, for every raw result
returned by the provider at a given radius, the pipeline computes its
great-circle distance from the center and records it on the candidate — but
no entry is discarded for its distance: every raw result of an "OK" response
is retained, whatever its distance and whatever the current radius. -/
theorem C4_search_keeps_all_results (dist : ℚ → ℚ → ℚ → ℚ → ℚ) (lat lng : ℚ)
    (ty : String) (r : ℚ) (places : List RawPlace) :
    searchRealGroomers dist true lat lng ty r (.ok "OK" places)
      = places.map (placeToGroomer dist lat lng ty) ∧
    ∀ p ∈ places,
      (placeToGroomer dist lat lng ty p).distanceKm = dist lat lng p.lat p.lng := by
  constructor
  · simp [searchRealGroomers]
  · intro p _
    rfl

/-- C4 witness: the retention theorem applied at one concrete provider
response. -/
theorem C4_search_keeps_all_results_witness :
    searchRealGroomers wDist true 30 (-97) "dog" 10 (.ok "OK" [wPlace])
      = [placeToGroomer wDist 30 (-97) "dog" wPlace] ∧
    (placeToGroomer wDist 30 (-97) "dog" wPlace).distanceKm
      = wDist 30 (-97) wPlace.lat wPlace.lng := by
  have h := C4_search_keeps_all_results wDist 30 (-97) "dog" 10 [wPlace]
  exact ⟨h.1, h.2 wPlace (List.mem_cons_self _ _)⟩

/-- C4 counterexample to the claim as stated: with the great-circle helper
returning 1000 km (as it does for far-apart points), a raw result whose
computed distance (1000) exceeds the current radius (10) is still retained
by the search — nothing is discarded. -/
theorem C4_counterexample :
    searchRealGroomers cxDistFar true 30 (-97) "dog" 10 (.ok "OK" [wPlace])
      = [placeToGroomer cxDistFar 30 (-97) "dog" wPlace] ∧
    (placeToGroomer cxDistFar 30 (-97) "dog" wPlace).distanceKm = 1000 ∧
    (10 : ℚ) < (placeToGroomer cxDistFar 30 (-97) "dog" wPlace).distanceKm := by
  refine ⟨rfl, rfl, ?_⟩
  show (10 : ℚ) < 1000
  norm_num

/-- C5 (amended): deduplication is keyed by the external identifier when it
is present (truthy), and otherwise by the coordinate pair alone — the address
is not part of the key; for any two list members with the same present
external identifier, the deduplicated list contains exactly one element
carrying that identifier. -/
theorem C5_dedup_by_id (l : List Groomer) (s : String) (g1 g2 : Groomer)
    (hs : s ≠ "") (h1 : g1.place_id = some s) (h2 : g2.place_id = some s)
    (m1 : g1 ∈ l) (m2 : g2 ∈ l) :
    (∀ g : Groomer, jsTruthy g.place_id = false →
      groomerKey g = .byCoord g.lat g.lng) ∧
    (dedupGroomers l []).countP (fun g => decide (g.place_id = some s)) = 1 := by
  constructor
  · intro g hg
    simp [groomerKey, hg]
  · have hcong : (dedupGroomers l []).countP (fun g => decide (g.place_id = some s))
        = (dedupGroomers l []).countP (fun g => decide (groomerKey g = .byId s)) := by
      refine List.countP_congr fun g _ => ?_
      simp only [decide_eq_true_eq]
      exact (groomerKey_byId_iff g s hs).symm
    rw [hcong]
    have hle := @dedup_keyCount_le_one (.byId s) l []
    have hpos := @dedup_keyCount_pos (.byId s) g1 l [] m1
      ((groomerKey_byId_iff g1 s hs).mpr h1) (by simp)
    omega

/-- C5 witness: two distinct candidates sharing identifier "pid-7"; exactly
one survives deduplication. -/
theorem C5_dedup_by_id_witness :
    (dedupGroomers [wG3, wG4] []).countP (fun g => decide (g.place_id = some "pid-7")) = 1 := by
  exact (C5_dedup_by_id [wG3, wG4] "pid-7" wG3 wG4 (by decide) rfl rfl
    (by decide) (by decide)).2

/-- C5 counterexample to the claim as stated: the key computed by the code ignores the
address.  Two identifier-less candidates at the same coordinate with
different addresses are merged into one, while the coordinate+address
composite key would keep both. -/
theorem C5_counterexample :
    groomerKey cxG1 = groomerKey cxG2 ∧
    cxG1.address ≠ cxG2.address ∧
    specGroomerKey cxG1 ≠ specGroomerKey cxG2 ∧
    dedupGroomers [cxG1, cxG2] [] = [cxG1] ∧
    specDedupGroomers [cxG1, cxG2] [] = [cxG1, cxG2] := by
  decide

/-- Facts about `fetchNearbyGroomers` when every radius produced zero
candidates: the mock fallback engages, giving a non-empty result of `"mock"`
entries and recorded radius 20. -/
theorem fetchMockFacts (dist : ℚ → ℚ → ℚ → ℚ → ℚ) (center : GeoLoc) (hasKey : Bool)
    (provider : ℚ → ProviderResp) (rnd : ℕ → ℚ) (ty : String)
    (hzero : ∀ m ∈ radiiMiles,
      searchRealGroomers dist hasKey center.lat center.lng ty m (provider m) = []) :
    (fetchNearbyGroomers dist (.ok center) hasKey provider rnd ty).groomers ≠ [] ∧
    (fetchNearbyGroomers dist (.ok center) hasKey provider rnd ty).radiusMilesUsed
      = some 20 ∧
    ∀ g ∈ (fetchNearbyGroomers dist (.ok center) hasKey provider rnd ty).groomers,
      g.source = "mock" := by
  have hlen : (mockGroomers dist center rnd ty).length = 8 := by
    simp only [mockGroomers, List.length_map, List.length_range]
    rfl
  have hfetch : fetchNearbyGroomers dist (.ok center) hasKey provider rnd ty
      = ⟨(sortByDist (dedupGroomers (mockGroomers dist center rnd ty) [])).take 12,
          some 20⟩ := by
    unfold fetchNearbyGroomers
    dsimp only
    rw [radiusLoop_of_all_nil _ _ _ _ hzero]
    rfl
  obtain ⟨g0, restM, hcons⟩ :=
    List.exists_cons_of_ne_nil (List.length_pos.mp (by rw [hlen]; norm_num) :
      mockGroomers dist center rnd ty ≠ [])
  refine ⟨?_, by rw [hfetch], ?_⟩
  · rw [hfetch]
    intro hnil
    have hlen2 : (dedupGroomers (mockGroomers dist center rnd ty) []).length = 0 := by
      have := congrArg List.length hnil
      rw [List.length_take, length_sortByDist] at this
      simpa using this
    rw [hcons] at hlen2
    simp [dedupGroomers] at hlen2
  · intro g hg
    rw [hfetch] at hg
    have hg2 : g ∈ sortByDist (dedupGroomers (mockGroomers dist center rnd ty) []) :=
      List.take_subset _ _ hg
    have hg3 : g ∈ mockGroomers dist center rnd ty :=
      dedupGroomers_subset (mem_sortByDist.mp hg2)
    simp only [mockGroomers, List.mem_map] at hg3
    obtain ⟨i, _, rfl⟩ := hg3
    rfl

/-- C6: when the provider yields zero candidates at every configured radius,
`fetchNearbyGroomers` synthesizes the fixed-size (8-entry) fallback set, so
the returned result is non-empty and every returned entry carries the
`"mock"` provenance tag. -/
theorem C6_mock_fallback (dist : ℚ → ℚ → ℚ → ℚ → ℚ) (center : GeoLoc) (hasKey : Bool)
    (provider : ℚ → ProviderResp) (rnd : ℕ → ℚ) (ty : String)
    (hzero : ∀ m ∈ radiiMiles,
      searchRealGroomers dist hasKey center.lat center.lng ty m (provider m) = []) :
    (mockGroomers dist center rnd ty).length = 8 ∧
    (fetchNearbyGroomers dist (.ok center) hasKey provider rnd ty).groomers ≠ [] ∧
    ∀ g ∈ (fetchNearbyGroomers dist (.ok center) hasKey provider rnd ty).groomers,
      g.source = "mock" := by
  have h := fetchMockFacts dist center hasKey provider rnd ty hzero
  refine ⟨?_, h.1, h.2.2⟩
  simp only [mockGroomers, List.length_map, List.length_range]
  rfl

/-- C6 witness: a provider returning `ZERO_RESULTS` at every radius yields a
non-empty, all-mock result set. -/
theorem C6_mock_fallback_witness :
    (fetchNearbyGroomers wDist (.ok wGeo) true wProviderZero wRnd "dog").groomers ≠ [] ∧
    ∀ g ∈ (fetchNearbyGroomers wDist (.ok wGeo) true wProviderZero wRnd "dog").groomers,
      g.source = "mock" := by
  have h := C6_mock_fallback wDist wGeo true wProviderZero wRnd "dog" (by decide)
  exact ⟨h.2.1, h.2.2⟩

/-- C9: `acquire()` grants a slot immediately exactly when fewer than the
maximum are held; otherwise the caller is appended to the wait queue; and
`release()` hands the freed slot to the head of the queue — the earliest
enqueued waiter — leaving the held count unchanged (FIFO transfer). -/
theorem C9_fifo_allocator (maxC : ℤ) (w : ℕ) (s : SemState) :
    (s.active < maxC → acquireLLMSlot maxC w s = (⟨s.active + 1, s.queue⟩, true)) ∧
    (¬s.active < maxC → acquireLLMSlot maxC w s = (⟨s.active, s.queue ++ [w]⟩, false)) ∧
    ∀ (w0 : ℕ) (rest : List ℕ), s.queue = w0 :: rest →
      releaseLLMSlot s = (⟨s.active, rest⟩, some w0) := by
  refine ⟨fun h => ?_, fun h => ?_, fun w0 rest hq => ?_⟩
  · simp [acquireLLMSlot, h]
  · simp [acquireLLMSlot, h]
  · unfold releaseLLMSlot
    rw [hq]
    dsimp only
    have ha : s.active - 1 + 1 = s.active := by omega
    rw [ha]

/-- C9 witness: capacity 1 — the first acquire is granted, the second
concurrent acquire suspends (is queued), and a release by the holder grants the
slot to that earliest waiter. -/
theorem C9_fifo_allocator_witness :
    acquireLLMSlot 1 1 ⟨0, []⟩ = (⟨1, []⟩, true) ∧
    acquireLLMSlot 1 2 ⟨1, []⟩ = (⟨1, [2]⟩, false) ∧
    releaseLLMSlot ⟨1, [2]⟩ = (⟨1, []⟩, some 2) := by
  refine ⟨?_, ?_, ?_⟩
  · exact (C9_fifo_allocator 1 1 ⟨0, []⟩).1 (by decide)
  · exact (C9_fifo_allocator 1 2 ⟨1, []⟩).2.1 (by decide)
  · exact (C9_fifo_allocator 1 2 ⟨1, [2]⟩).2.2 2 [] rfl

/-- C10: under the `callLLM` usage discipline (each holder releases exactly
once, in `finally`), every reachable allocator state keeps
`activeLLMCalls` within `[0, MAX_CONCURRENT]`; and a `callLLM` run leaves the
allocator state as release-after-acquire on the success path and on the throw
path alike — no slot is leaked by an error. -/
theorem C10_no_slot_leak (maxC : ℤ) (hN : 0 ≤ maxC) :
    (∀ s, SemReachable maxC s → 0 ≤ s.active ∧ s.active ≤ maxC) ∧
    ∀ (w : ℕ) (hasGroqKey : Bool) (api : Except String String) (s : SemState),
      (callLLMRun maxC w hasGroqKey api s).1
        = (releaseLLMSlot (acquireLLMSlot maxC w s).1).1 := by
  refine ⟨fun s hs => ?_, fun w hasGroqKey api s => ?_⟩
  · have h := semInvariant maxC hN s hs
    exact ⟨h.1, h.2.1⟩
  · unfold callLLMRun
    cases callLLMResult hasGroqKey api <;> rfl

/-- C10 witness: capacity 5, one active call is within bounds, and a failing
call (missing key) releases its slot just as a successful one does. -/
theorem C10_no_slot_leak_witness :
    (0 ≤ (⟨1, []⟩ : SemState).active ∧ (⟨1, []⟩ : SemState).active ≤ 5) ∧
    (callLLMRun 5 0 false (.ok "") ⟨0, []⟩).1
      = (releaseLLMSlot (acquireLLMSlot 5 0 ⟨0, []⟩).1).1 := by
  have h := C10_no_slot_leak 5 (by norm_num)
  refine ⟨h.1 ⟨1, []⟩ ?_, h.2 0 false (.ok "") ⟨0, []⟩⟩
  have h0 := SemReachable.arrive 0 ⟨0, []⟩ (SemReachable.init : SemReachable 5 ⟨0, []⟩)
  have hacq : (acquireLLMSlot 5 0 ⟨0, []⟩).1 = ⟨1, []⟩ := by decide
  rwa [hacq] at h0

/-- Route helper: with valid input and an empty search result, the handler
takes the short-circuit branch. -/
theorem priceRoute_empty_search (d : RouteDeps) (a z l s t : Option String)
    (hval : routeValidation a z l s t = [])
    (hempty : (routeSearch d a z l s t).groomers = []) :
    priceRoute d a z l s t =
      (.ok 0 (routeSearch d a z l s t).radiusMilesUsed
        ⟨none, none, "USD", "low", "No local groomers found"⟩ [], false) := by
  have hv : ¬(routeValidation a z l s t ≠ []) := by rw [hval]; exact fun h => h rfl
  unfold priceRoute
  rw [if_neg hv]
  dsimp only
  rw [if_pos hempty]

/-- C2: with valid input, when the groomer search yields an empty candidate
list the route short-circuits: HTTP 200, `PriceEstimate` with null bounds and
confidence "low" plus an explanatory note, and the text-generation model is
never invoked. -/
theorem C2_empty_search_short_circuit (d : RouteDeps) (a z l s t : Option String)
    (hval : routeValidation a z l s t = [])
    (hempty : (routeSearch d a z l s t).groomers = []) :
    priceRoute d a z l s t =
      (.ok 0 (routeSearch d a z l s t).radiusMilesUsed
        ⟨none, none, "USD", "low", "No local groomers found"⟩ [], false) ∧
    routeStatus (priceRoute d a z l s t).1 = 200 ∧
    (priceRoute d a z l s t).2 = false := by
  have h := priceRoute_empty_search d a z l s t hval hempty
  exact ⟨h, by rw [h]; rfl, by rw [h]⟩

/-- C2 witness: a request whose geocoding fails yields the short-circuit. -/
theorem C2_empty_search_short_circuit_witness :
    priceRoute wDepsGeoFail none none (some "Austin, TX") (some "medium") (some "dog") =
      (.ok 0 none ⟨none, none, "USD", "low", "No local groomers found"⟩ [], false) ∧
    routeStatus (priceRoute wDepsGeoFail none none (some "Austin, TX") (some "medium")
      (some "dog")).1 = 200 := by
  have h := C2_empty_search_short_circuit wDepsGeoFail none none (some "Austin, TX")
    (some "medium") (some "dog") (by decide) (by decide)
  exact ⟨h.1.trans (by decide), h.2.1⟩

/-- C3 (amended): an exception that reaches the top-level
`catch` — which, in this pipeline, is exactly a geocoding failure, since the
Places-provider step swallows its own errors — is converted into an empty
result set with a null radius, and the request handler still responds 200
with a low-confidence estimate rather than an error. -/
theorem C3_geocode_failure_degrades (d : RouteDeps) (a z l s t : Option String)
    (e : String) (hgeo : d.geo = .error e)
    (hval : routeValidation a z l s t = []) :
    routeSearch d a z l s t = ⟨[], none⟩ ∧
    priceRoute d a z l s t =
      (.ok 0 none ⟨none, none, "USD", "low", "No local groomers found"⟩ [], false) ∧
    routeStatus (priceRoute d a z l s t).1 = 200 := by
  have hsr : routeSearch d a z l s t = ⟨[], none⟩ := by
    unfold routeSearch fetchNearbyGroomers
    rw [hgeo]
  have h := priceRoute_empty_search d a z l s t hval (by rw [hsr])
  rw [hsr] at h
  exact ⟨hsr, h, by rw [h]; rfl⟩

/-- C3 witness: the degraded-geocoding theorem at a concrete failing
geocoder. -/
theorem C3_geocode_failure_degrades_witness :
    routeSearch wDepsGeoFail none none (some "Austin, TX") (some "medium") (some "dog")
      = ⟨[], none⟩ ∧
    routeStatus (priceRoute wDepsGeoFail none none (some "Austin, TX") (some "medium")
      (some "dog")).1 = 200 := by
  have h := C3_geocode_failure_degrades wDepsGeoFail none none (some "Austin, TX")
    (some "medium") (some "dog") "Address not found: nowhere" rfl (by decide)
  exact ⟨h.1, h.2.2⟩

/-- C3 counterexample to the claim as stated: an exception raised inside the
Places-provider step (a thrown search request, at every radius) is NOT
converted into an empty result set with a null radius — the search component
instead engages the mock fallback and returns 8 synthesized candidates with
radius 20. -/
theorem C3_counterexample :
    (fetchNearbyGroomers wDist (.ok wGeo) true cxProviderErr wRnd "dog").groomers ≠ [] ∧
    (fetchNearbyGroomers wDist (.ok wGeo) true cxProviderErr wRnd "dog").radiusMilesUsed
      = some 20 := by
  have h := fetchMockFacts wDist wGeo true cxProviderErr wRnd "dog" (by decide)
  exact ⟨h.1, h.2.1⟩

/-- C1 (amended): with valid input, a non-empty groomer list and a model
output that is neither directly parseable as JSON nor contains any
brace-delimited substring, the returned estimate is the deterministic
heuristic: min 30 for tiny/small, 50 for medium, 80 otherwise; max = min+50;
currency "USD"; confidence "medium"; parse-fallback note.  (When a
brace-delimited substring exists but fails to parse, the second `JSON.parse`
throws and the request becomes a 500 — see the counterexample.) -/
theorem C1_heuristic_on_unparseable (d : RouteDeps) (a z l s t : Option String)
    (raw : String)
    (hval : routeValidation a z l s t = [])
    (hne : ¬(routeSearch d a z l s t).groomers = [])
    (hllm : d.llm = .ok raw)
    (hparse : d.jsonParse raw = none)
    (hbrace : extractBraceMatch raw = none) :
    priceRoute d a z l s t =
      (.ok (routeSearch d a z l s t).groomers.length
        (routeSearch d a z l s t).radiusMilesUsed
        ⟨some (if routeSize a z l s t = "tiny" ∨ routeSize a z l s t = "small" then (30 : ℚ)
            else if routeSize a z l s t = "medium" then 50 else 80),
         some ((if routeSize a z l s t = "tiny" ∨ routeSize a z l s t = "small" then (30 : ℚ)
            else if routeSize a z l s t = "medium" then 50 else 80) + 50),
         "USD", "medium", "Fallback estimate (LLM parse error)"⟩
        (routeSearch d a z l s t).groomers, true) := by
  have hv : ¬(routeValidation a z l s t ≠ []) := by rw [hval]; exact fun h => h rfl
  unfold priceRoute
  rw [if_neg hv]
  dsimp only
  rw [if_neg hne, hllm]
  dsimp only
  rw [hparse]
  dsimp only
  rw [hbrace]
  dsimp only
  unfold heuristicEstimate
  rfl

/-- C1 witness: brace-free, non-JSON model output with a "medium" pet size
gives the 50–100 USD heuristic estimate. -/
theorem C1_heuristic_on_unparseable_witness :
    priceRoute wDepsNoBrace none none (some "Austin, TX") (some "medium") (some "dog") =
      (.ok 1 (some 10)
        ⟨some 50, some 100, "USD", "medium", "Fallback estimate (LLM parse error)"⟩
        (routeSearch wDepsNoBrace none none (some "Austin, TX") (some "medium")
          (some "dog")).groomers, true) := by
  have h := C1_heuristic_on_unparseable wDepsNoBrace none none (some "Austin, TX")
    (some "medium") (some "dog") "between thirty and eighty dollars"
    (by decide) (by decide) rfl rfl (by decide)
  rw [h]
  have hsize : routeSize none none (some "Austin, TX") (some "medium") (some "dog")
      = "medium" := by decide
  have hcount : (routeSearch wDepsNoBrace none none (some "Austin, TX") (some "medium")
      (some "dog")).groomers.length = 1 := by decide
  have hrad : (routeSearch wDepsNoBrace none none (some "Austin, TX") (some "medium")
      (some "dog")).radiusMilesUsed = some 10 := by decide
  rw [hsize, hcount, hrad]
  rw [if_neg (by decide : ¬("medium" = "tiny" ∨ "medium" = "small"))]
  rw [if_pos (rfl : "medium" = "medium")]
  norm_num

/-- C1 counterexample to the claim as stated: the model output
`"x \x7by\x7d"` is not directly parseable and its extractable brace-delimited
substring `"\x7by\x7d"` does not parse either, yet the returned estimate is
NOT the heuristic — the second `JSON.parse` throws and the request ends as a
500 server error. -/
theorem C1_counterexample :
    cxDepsBadBrace.jsonParse "x \x7by\x7d" = none ∧
    extractBraceMatch "x \x7by\x7d" = some "\x7by\x7d" ∧
    cxDepsBadBrace.jsonParse "\x7by\x7d" = none ∧
    ¬(routeSearch cxDepsBadBrace none none (some "Austin, TX") (some "medium")
      (some "dog")).groomers = [] ∧
    priceRoute cxDepsBadBrace none none (some "Austin, TX") (some "medium") (some "dog")
      = (.serverError jsonThrowMessage, true) ∧
    routeStatus (priceRoute cxDepsBadBrace none none (some "Austin, TX") (some "medium")
      (some "dog")).1 = 500 := by
  decide

/-- A failing model call always surfaces as a wrapped error message. -/
theorem callLLMResult_error (hasGroqKey : Bool) (api : Except String String)
    (msg : String) (hfail : hasGroqKey = false ∨ api = .error msg) :
    callLLMResult hasGroqKey api = .error ("Groq AI connection failed: " ++
      (if hasGroqKey then msg else "GROQ_API_KEY not configured in environment")) := by
  rcases hfail with rfl | rfl
  · rfl
  · cases hasGroqKey <;> rfl

/-- C8: when the model call itself fails (missing credentials or a provider
error), the failure is not downgraded to the heuristic: the route responds
500 with error label "Pricing service error" and the thrown message as
details. -/
theorem C8_model_failure_is_500 (d : RouteDeps) (a z l s t : Option String)
    (hasGroqKey : Bool) (api : Except String String) (msg : String)
    (hval : routeValidation a z l s t = [])
    (hne : ¬(routeSearch d a z l s t).groomers = [])
    (hllm : d.llm = callLLMResult hasGroqKey api)
    (hfail : hasGroqKey = false ∨ api = .error msg) :
    priceRoute d a z l s t =
      (.serverError ("Groq AI connection failed: " ++
        (if hasGroqKey then msg else "GROQ_API_KEY not configured in environment")), true) ∧
    routeStatus (priceRoute d a z l s t).1 = 500 ∧
    routeErrorLabel (priceRoute d a z l s t).1 = some "Pricing service error" := by
  have herr := callLLMResult_error hasGroqKey api msg hfail
  have hv : ¬(routeValidation a z l s t ≠ []) := by rw [hval]; exact fun h => h rfl
  have hpr : priceRoute d a z l s t =
      (.serverError ("Groq AI connection failed: " ++
        (if hasGroqKey then msg else "GROQ_API_KEY not configured in environment")), true) := by
    unfold priceRoute
    rw [if_neg hv]
    dsimp only
    rw [if_neg hne, hllm, herr]
  exact ⟨hpr, by rw [hpr]; rfl, by rw [hpr]; rfl⟩

/-- C8 witness: a missing `GROQ_API_KEY` on a request with groomers found
ends as a 500 "Pricing service error". -/
theorem C8_model_failure_is_500_witness :
    routeStatus (priceRoute wDepsLLMFail none none (some "Austin, TX") (some "medium")
      (some "dog")).1 = 500 ∧
    routeErrorLabel (priceRoute wDepsLLMFail none none (some "Austin, TX") (some "medium")
      (some "dog")).1 = some "Pricing service error" := by
  have h := C8_model_failure_is_500 wDepsLLMFail none none (some "Austin, TX")
    (some "medium") (some "dog") false (.ok "") "" (by decide) (by decide) rfl (Or.inl rfl)
  exact ⟨h.2.1, h.2.2⟩

/-- When the incremented counter is over the limit, the middleware blocks
with the window-remainder retry hint. -/
theorem rateLimiter_blocked_of_over (windowMs maxReq now : ℤ) (prev : Option RLEntry)
    (h : maxReq < (rateLimiter windowMs maxReq now prev).entry.count) :
    (rateLimiter windowMs maxReq now prev).blocked
      = some (ceilDiv1000
          ((rateLimiter windowMs maxReq now prev).entry.windowStart + windowMs - now)) := by
  unfold rateLimiter at h ⊢
  dsimp only at h ⊢
  rw [if_pos h]

/-- The retry hint is never negative (for a non-negative configured window). -/
theorem rateLimiter_retry_nonneg (windowMs maxReq now : ℤ) (prev : Option RLEntry)
    (hW : 0 ≤ windowMs) :
    0 ≤ ceilDiv1000
      ((rateLimiter windowMs maxReq now prev).entry.windowStart + windowMs - now) := by
  unfold rateLimiter ceilDiv1000
  dsimp only
  split_ifs with h
  · dsimp only
    exact Int.ediv_nonneg (by omega) (by norm_num)
  · exact Int.ediv_nonneg (by omega) (by norm_num)

/-- C7: the middleware always sets the limit header to the configured
maximum and the remaining header to `max 0 (limit − count)`; when the
incremented per-client counter exceeds the maximum it blocks the request —
remaining header 0, a `Retry-After` value ≥ 0 — and the protected pricing
pipeline (and hence the model) is never invoked, the response being 429;
when the counter is within the limit the request passes through. -/
theorem C7_rate_limit_429 (windowMs maxReq now : ℤ) (prev : Option RLEntry)
    (hW : 0 ≤ windowMs) :
    (rateLimiter windowMs maxReq now prev).limitHeader = maxReq ∧
    (rateLimiter windowMs maxReq now prev).remainingHeader
      = max 0 (maxReq - (rateLimiter windowMs maxReq now prev).entry.count) ∧
    (maxReq < (rateLimiter windowMs maxReq now prev).entry.count →
      (rateLimiter windowMs maxReq now prev).remainingHeader = 0 ∧
      ∃ r, (rateLimiter windowMs maxReq now prev).blocked = some r ∧ 0 ≤ r) ∧
    ((rateLimiter windowMs maxReq now prev).entry.count ≤ maxReq →
      (rateLimiter windowMs maxReq now prev).blocked = none) ∧
    ∀ (d : RouteDeps) (a z l s t : Option String),
      maxReq < (rateLimiter windowMs maxReq now prev).entry.count →
      priceEndpoint windowMs maxReq now prev d a z l s t = ⟨429, false, false⟩ := by
  refine ⟨rfl, rfl, fun hover => ⟨?_, ?_⟩, fun hunder => ?_, fun d a z l s t hover => ?_⟩
  · show max 0 (maxReq - (rateLimiter windowMs maxReq now prev).entry.count) = 0
    omega
  · exact ⟨_, rateLimiter_blocked_of_over windowMs maxReq now prev hover,
      rateLimiter_retry_nonneg windowMs maxReq now prev hW⟩
  · unfold rateLimiter at hunder ⊢
    dsimp only at hunder ⊢
    rw [if_neg (by omega)]
  · unfold priceEndpoint
    dsimp only
    rw [rateLimiter_blocked_of_over windowMs maxReq now prev hover]

/-- C7 witness: the 61st request of an hour-long window with limit 60 is
rejected with remaining 0, a non-negative retry hint, and a 429 without the
pipeline running. -/
theorem C7_rate_limit_429_witness :
    (rateLimiter 3600000 60 1000000 (some ⟨60, 500000⟩)).remainingHeader = 0 ∧
    (rateLimiter 3600000 60 1000000 (some ⟨60, 500000⟩)).blocked = some 3100 ∧
    priceEndpoint 3600000 60 1000000 (some ⟨60, 500000⟩) wDepsNoBrace none none
      (some "Austin, TX") (some "medium") (some "dog") = ⟨429, false, false⟩ := by
  have h := C7_rate_limit_429 3600000 60 1000000 (some ⟨60, 500000⟩) (by norm_num)
  have hover : (60 : ℤ) < (rateLimiter 3600000 60 1000000 (some ⟨60, 500000⟩)).entry.count := by
    decide
  refine ⟨(h.2.2.1 hover).1, ?_, h.2.2.2.2 wDepsNoBrace none none (some "Austin, TX")
    (some "medium") (some "dog") hover⟩
  obtain ⟨r, hr, _⟩ := (h.2.2.1 hover).2
  rw [hr]
  have : r = 3100 := by
    have := hr.symm.trans (rateLimiter_blocked_of_over 3600000 60 1000000
      (some ⟨60, 500000⟩) hover)
    simpa [ceilDiv1000] using (Option.some.injEq _ _ ▸ this :)
  rw [this]

end Groomly
